import Mathlib

/-
Shallow embedding of the stage08 wallet service (Go + PostgreSQL).

The relational store is modelled as in-memory lists of rows; each SQL
statement of the source is translated into a pure function on that state.
SQL `UPDATE ... WHERE c` becomes a pointwise map guarded by the WHERE
predicate, with the affected-row count given by `countP`; the
`CHECK (balance >= 0)` column constraint of the wallets table
(migration 002) is an explicit error branch, since a violating UPDATE
makes the statement fail in PostgreSQL.  UUIDs are modelled as `Nat`,
BIGINT amounts as `Int`, timestamps as `Int`.
-/

namespace Stage08

inductive TransactionType where
  | deposit
  | transfer_in
  | transfer_out
deriving DecidableEq

inductive TransactionStatus where
  | pending
  | success
  | failed
deriving DecidableEq

/-- Row of the `wallets` table (migration 002, `models.Wallet`). -/
structure Wallet where
  id : Nat
  userId : Nat
  walletNumber : String
  balance : Int
deriving DecidableEq

/-- Row of the `transactions` table (migration 003, `models.Transaction`). -/
structure Transaction where
  id : Nat
  userId : Nat
  walletId : Nat
  kind : TransactionType
  amount : Int
  status : TransactionStatus
  reference : Option String
deriving DecidableEq

/-- The wallet-side state of the relational store. -/
structure DB where
  wallets : List Wallet
  transactions : List Transaction
deriving DecidableEq

namespace WalletRepository

/-- SELECT * FROM wallets WHERE user_id = $1 (sqlx Get: first row or no rows). -/
def FindByUserID (db : DB) (userID : Nat) : Option Wallet :=
  db.wallets.find? (fun w => decide (w.userId = userID))

/-- SELECT * FROM wallets WHERE wallet_number = $1. -/
def FindByWalletNumber (db : DB) (walletNumber : String) : Option Wallet :=
  db.wallets.find? (fun w => decide (w.walletNumber = walletNumber))

/-- UPDATE wallets SET balance = balance + $1 WHERE id = $2, with the
table's CHECK (balance >= 0); zero rows affected is reported as
"wallet not found". -/
def Credit (db : DB) (walletID : Nat) (amount : Int) : Except String DB :=
  if db.wallets.any (fun w => decide (w.id = walletID) && decide (w.balance + amount < 0)) then
    .error "failed to credit wallet"
  else if db.wallets.countP (fun w => decide (w.id = walletID)) = 0 then
    .error "wallet not found"
  else
    .ok { db with wallets := db.wallets.map (fun w =>
      if w.id = walletID then { w with balance := w.balance + amount } else w) }

/-- UPDATE wallets SET balance = balance - $1 WHERE id = $2 AND balance >= $1,
with the table's CHECK (balance >= 0); zero rows affected is reported as
"insufficient balance or wallet not found". -/
def Debit (db : DB) (walletID : Nat) (amount : Int) : Except String DB :=
  if db.wallets.any (fun w =>
      decide (w.id = walletID) && decide (amount ≤ w.balance) && decide (w.balance - amount < 0)) then
    .error "failed to debit wallet"
  else if db.wallets.countP (fun w => decide (w.id = walletID) && decide (amount ≤ w.balance)) = 0 then
    .error "insufficient balance or wallet not found"
  else
    .ok { db with wallets := db.wallets.map (fun w =>
      if w.id = walletID ∧ amount ≤ w.balance then { w with balance := w.balance - amount } else w) }

end WalletRepository

namespace TransactionRepository

/-- SELECT * FROM transactions WHERE reference = $1 (ErrNoRows becomes none). -/
def FindByReference (db : DB) (reference : String) : Option Transaction :=
  db.transactions.find? (fun t => decide (t.reference = some reference))

/-- UPDATE transactions SET status = $1 WHERE id = $2 (unconditional). -/
def UpdateStatus (db : DB) (id : Nat) (status : TransactionStatus) : DB :=
  { db with transactions := db.transactions.map (fun t =>
      if t.id = id then { t with status := status } else t) }

end TransactionRepository

/-- Balance of the wallet row with the given id, as an observation of state. -/
def walletBalance (db : DB) (walletID : Nat) : Option Int :=
  (db.wallets.find? (fun w => decide (w.id = walletID))).map (fun w => w.balance)

namespace PaystackHandler

/-- processDeposit of paystack_handler.go: settle a webhook notification for
`reference` carrying `amount` and processor `status`.  The final credit and
status change run inside one store transaction; the credit Exec does not
inspect its affected-row count, matching the source. -/
def processDeposit (db : DB) (reference : String) (amount : Int) (status : String) :
    Except String DB :=
  match TransactionRepository.FindByReference db reference with
  | none => .error ("transaction not found: " ++ reference)
  | some tx =>
    if tx.status = .success then
      .ok db
    else if status ≠ "success" then
      .ok (TransactionRepository.UpdateStatus db tx.id .failed)
    else if tx.amount ≠ amount then
      .ok (TransactionRepository.UpdateStatus db tx.id .failed)
    else
      if db.wallets.any (fun w => decide (w.id = tx.walletId) && decide (w.balance + amount < 0)) then
        .error "failed to credit wallet"
      else
        .ok (TransactionRepository.UpdateStatus
          { db with wallets := db.wallets.map (fun w =>
              if w.id = tx.walletId then { w with balance := w.balance + amount } else w) }
          tx.id .success)

inductive DepositStatusResponse where
  | err (status : Nat) (msg : String)
  | found (reference : String) (status : TransactionStatus) (amount : Int)
deriving DecidableEq

/-- GetDepositStatus of paystack_handler.go: the handler reads only the
reference path parameter, never the authenticated user. -/
def GetDepositStatus (db : DB) (reference : String) : DepositStatusResponse :=
  match TransactionRepository.FindByReference db reference with
  | none => .err 404 "Transaction not found"
  | some tx => .found reference tx.status tx.amount

/-- The deposit-status route as wired in main.go: RequirePermission "read"
in front of GetDepositStatus.  `callerUserID` is the identity resolved by
the auth middleware; the handler itself never reads it. -/
def GetDepositStatusRoute (db : DB) (_callerUserID : Nat) (callerPermissions : List String)
    (reference : String) : DepositStatusResponse :=
  if "read" ∈ callerPermissions then
    GetDepositStatus db reference
  else
    .err 403 "Permission read required"

end PaystackHandler

namespace WalletHandler

inductive TransferResult where
  | invalidRequest
  | recipientNotFound
  | nilDeref
  | selfTransfer
  | insufficientBalance
  | transferFailed
  | success
deriving DecidableEq

/-- Transfer of wallet_handler.go.  The request binding enforces a non-empty
wallet number and amount >= 100; the handler checks the recipient wallet for
absence but dereferences the sender wallet pointer without a nil check
(`senderWallet.ID`), modelled by the `nilDeref` outcome. -/
def Transfer (db : DB) (userID : Nat) (walletNumber : String) (amount : Int) :
    TransferResult × DB :=
  if walletNumber = "" ∨ amount < 100 then
    (.invalidRequest, db)
  else
    let senderWallet := WalletRepository.FindByUserID db userID
    match WalletRepository.FindByWalletNumber db walletNumber with
    | none => (.recipientNotFound, db)
    | some recipientWallet =>
      match senderWallet with
      | none => (.nilDeref, db)
      | some sender =>
        if sender.id = recipientWallet.id then
          (.selfTransfer, db)
        else if sender.balance < amount then
          (.insufficientBalance, db)
        else
          match WalletRepository.Debit db sender.id amount with
          | .error _ => (.insufficientBalance, db)
          | .ok db1 =>
            match WalletRepository.Credit db1 recipientWallet.id amount with
            | .error _ =>
              match WalletRepository.Credit db1 sender.id amount with
              | .error _ => (.transferFailed, db1)
              | .ok db2 => (.transferFailed, db2)
            | .ok db2 => (.success, db2)

end WalletHandler

/-- Row of the `api_keys` table (migration 004, `models.APIKey`).  The
displayed short key fragment and audit timestamps are not needed by any
claim and are omitted. -/
structure APIKey where
  id : Nat
  userId : Nat
  name : String
  keyHash : String
  permissions : List String
  isActive : Bool
  expiresAt : Int
deriving DecidableEq

/-- APIKey.IsExpired of models: time.Now().After(a.ExpiresAt), with the
current instant passed explicitly. -/
def APIKey.IsExpired (a : APIKey) (now : Int) : Bool :=
  decide (a.expiresAt < now)

/-- The api_keys side of the relational store. -/
structure KeyDB where
  apiKeys : List APIKey
deriving DecidableEq

/-- Membership test of the validPermissions map in utils (deposit, transfer, read). -/
def validPermission (p : String) : Bool :=
  p == "deposit" || p == "transfer" || p == "read"

/-- ValidatePermissions of utils: reject an empty list, then reject the
first unrecognized permission name. -/
def ValidatePermissions (permissions : List String) : Except String Unit :=
  if permissions.length == 0 then
    .error "at least one permission is required"
  else
    match permissions.find? (fun p => !(validPermission p)) with
    | some p => .error ("invalid permission: " ++ p)
    | none => .ok ()

namespace APIKeyRepository

/-- SELECT * FROM api_keys WHERE id = $1. -/
def FindByID (db : KeyDB) (id : Nat) : Option APIKey :=
  db.apiKeys.find? (fun k => decide (k.id = id))

/-- SELECT COUNT(*) FROM api_keys WHERE user_id = $1 AND is_active = true. -/
def CountActiveByUser (db : KeyDB) (userID : Nat) : Nat :=
  db.apiKeys.countP (fun k => decide (k.userId = userID) && k.isActive)

/-- UPDATE api_keys SET is_active = false WHERE id = $1. -/
def Revoke (db : KeyDB) (id : Nat) : KeyDB :=
  { db with apiKeys := db.apiKeys.map (fun k =>
      if k.id = id then { k with isActive := false } else k) }

/-- INSERT INTO api_keys, guarded by the BEFORE INSERT trigger
check_max_active_keys (the new row is active, and rows with the new id are
excluded from the count) and by the check_permissions CHECK constraint of
migration 004.  `newID` stands for the generated row id, `keyHash` for the
SHA-256 hash of the freshly generated secret. -/
def Create (db : KeyDB) (userID : Nat) (name keyHash : String) (permissions : List String)
    (expiresAt : Int) (newID : Nat) : Except String (KeyDB × APIKey) :=
  if 5 ≤ db.apiKeys.countP (fun k =>
      decide (k.userId = userID) && k.isActive && decide (k.id ≠ newID)) then
    .error "Maximum 5 active API keys allowed per user"
  else if permissions.length == 0 || permissions.any (fun p => !(validPermission p)) then
    .error "check constraint check_permissions violated"
  else
    .ok ({ db with apiKeys := db.apiKeys ++
        [{ id := newID, userId := userID, name := name, keyHash := keyHash,
           permissions := permissions, isActive := true, expiresAt := expiresAt }] },
      { id := newID, userId := userID, name := name, keyHash := keyHash,
        permissions := permissions, isActive := true, expiresAt := expiresAt })

end APIKeyRepository

namespace APIKeyHandler

/-- CreateAPIKey of apikey_handler.go, after request binding: validate the
permission names, then refuse when the user already has 5 active keys, else
insert through the repository (the expiry parse of utils.ParseExpiry is
abstracted into the resolved `expiresAt` instant). -/
def CreateAPIKey (db : KeyDB) (userID : Nat) (name : String) (permissions : List String)
    (expiresAt : Int) (keyHash : String) (newID : Nat) : Except String (KeyDB × APIKey) :=
  match ValidatePermissions permissions with
  | .error e => .error e
  | .ok _ =>
    if 5 ≤ APIKeyRepository.CountActiveByUser db userID then
      .error "Maximum 5 active API keys allowed per user"
    else
      APIKeyRepository.Create db userID name keyHash permissions expiresAt newID

/-- RolloverAPIKey of apikey_handler.go: look up the old key, check
ownership, require that it is already expired, re-check the active-key cap,
then create a new key carrying the old name and permissions. -/
def RolloverAPIKey (db : KeyDB) (userID : Nat) (expiredKeyID : Nat) (newExpiresAt : Int)
    (now : Int) (keyHash : String) (newID : Nat) : Except String (KeyDB × APIKey) :=
  match APIKeyRepository.FindByID db expiredKeyID with
  | none => .error "API key not found"
  | some expiredKey =>
    if expiredKey.userId ≠ userID then
      .error "You do not own this API key"
    else if !(expiredKey.IsExpired now) then
      .error "API key is not expired yet"
    else if 5 ≤ APIKeyRepository.CountActiveByUser db userID then
      .error "Maximum 5 active API keys allowed per user"
    else
      APIKeyRepository.Create db userID expiredKey.name keyHash expiredKey.permissions
        newExpiresAt newID

end APIKeyHandler

namespace Middleware

/-- FindByKey of apikey_repository.go, as a function of the raw outcome of
the store query for the hashed key: ErrNoRows is already `.ok none`; any
other store error is wrapped with context. -/
def FindByKey (dbGet : Except String (Option APIKey)) : Except String (Option APIKey) :=
  match dbGet with
  | .ok v => .ok v
  | .error e => .error ("failed to find API key: " ++ e)

/-- validateAPIKey of the auth middleware: store errors are returned as-is,
an unknown key is invalid, a revoked check precedes the expiry check, and a
valid key yields itself (its user and permission set). -/
def validateAPIKey (dbGet : Except String (Option APIKey)) (now : Int) :
    Except String APIKey :=
  match FindByKey dbGet with
  | .error e => .error e
  | .ok none => .error "invalid API key"
  | .ok (some apiKey) =>
    if !apiKey.isActive then
      .error "API key is revoked"
    else if apiKey.IsExpired now then
      .error "API key has expired"
    else
      .ok apiKey

structure HttpResponse where
  status : Nat
  body : String
deriving DecidableEq

/-- The x-api-key branch of AuthMiddleware: a validateAPIKey error is sent
to the caller as a 401 whose body is err.Error() verbatim. -/
def AuthMiddlewareAPIKey (dbGet : Except String (Option APIKey)) (now : Int) :
    Except HttpResponse APIKey :=
  match validateAPIKey dbGet now with
  | .error e => .error { status := 401, body := e }
  | .ok k => .ok k

end Middleware

namespace WalletHandler

inductive BalanceResponse where
  | err (status : Nat) (msg : String)
  | found (balance : Int) (walletNumber : String)
deriving DecidableEq

/-- GetBalance of wallet_handler.go as a function of the wallet lookup
outcome: a store failure becomes the generic 500 "Database error" body. -/
def GetBalance (walletFound : Except String (Option Wallet)) : BalanceResponse :=
  match walletFound with
  | .error _ => .err 500 "Database error"
  | .ok none => .err 404 "Wallet not found"
  | .ok (some wallet) => .found wallet.balance wallet.walletNumber

end WalletHandler

/-- A pointwise row update that does not touch the searched column commutes
with row lookup. -/
theorem find?_map_pres {α : Type} (f : α → α) (p : α → Bool)
    (hp : ∀ x, p (f x) = p x) (l : List α) :
    (l.map f).find? p = (l.find? p).map f := by
  rw [List.find?_map]
  have h : (p ∘ f) = p := funext hp
  rw [h]

/-- Strict decrease of a row count when one counted row stops matching. -/
theorem countP_lt_of_mem {α : Type} {p q : α → Bool} {a : α}
    (hpa : p a = true) (hqa : q a = false) :
    ∀ l : List α, (∀ x ∈ l, q x = true → p x = true) → a ∈ l →
      l.countP q < l.countP p := by
  intro l
  induction l with
  | nil => intro _ ha; cases ha
  | cons b t ih =>
    intro hq ha
    have h1 : t.countP q ≤ t.countP p :=
      List.countP_mono_left (fun x hx hqx => hq x (List.mem_cons_of_mem _ hx) hqx)
    rw [List.countP_cons, List.countP_cons]
    rcases List.mem_cons.mp ha with rfl | hat
    · simp only [hpa, hqa, if_true]
      simp only [Bool.false_eq_true, if_false]
      omega
    · have h2 := ih (fun x hx hqx => hq x (List.mem_cons_of_mem _ hx) hqx) hat
      by_cases hb : q b = true
      · have hpb : p b = true := hq b (List.mem_cons_self b t) hb
        simp only [hb, hpb, if_true]
        omega
      · have hb' : q b = false := Bool.eq_false_iff.mpr hb
        by_cases hpb : p b = true
        · simp only [hb', hpb, if_true]
          simp only [Bool.false_eq_true, if_false]
          omega
        · have hpb' : p b = false := Bool.eq_false_iff.mpr hpb
          simp only [hb', hpb', Bool.false_eq_true, if_false]
          omega

/-- C2: for every wallet the balance is never negative: Credit and Debit
preserve balance >= 0, and a Debit whose amount exceeds the current balance
affects zero rows, is reported as insufficient balance, and changes no
state. -/
theorem C2_balance_nonnegative :
    (∀ (db : DB) (walletID : Nat) (amount : Int) (db' : DB),
      WalletRepository.Credit db walletID amount = .ok db' →
      (∀ w ∈ db.wallets, 0 ≤ w.balance) →
      ∀ w ∈ db'.wallets, 0 ≤ w.balance) ∧
    (∀ (db : DB) (walletID : Nat) (amount : Int) (db' : DB),
      WalletRepository.Debit db walletID amount = .ok db' →
      (∀ w ∈ db.wallets, 0 ≤ w.balance) →
      ∀ w ∈ db'.wallets, 0 ≤ w.balance) ∧
    (∀ (db : DB) (walletID : Nat) (amount : Int),
      (∀ w ∈ db.wallets, w.id = walletID → w.balance < amount) →
      WalletRepository.Debit db walletID amount =
        .error "insufficient balance or wallet not found") := by
  refine ⟨?_, ?_, ?_⟩
  · intro db wid amt db' hok hinv w' hw'
    unfold WalletRepository.Credit at hok
    split at hok
    · exact Except.noConfusion hok
    · split at hok
      · exact Except.noConfusion hok
      · rename_i hany _
        injection hok with hok
        subst hok
        rcases List.mem_map.mp hw' with ⟨w, hw, rfl⟩
        by_cases hid : w.id = wid
        · have h0 : 0 ≤ w.balance + amt := by
            by_contra hneg
            push_neg at hneg
            exact hany (List.any_eq_true.mpr ⟨w, hw, by simp [hid, hneg]⟩)
          simpa [hid] using h0
        · simpa [hid] using hinv w hw
  · intro db wid amt db' hok hinv w' hw'
    unfold WalletRepository.Debit at hok
    split at hok
    · exact Except.noConfusion hok
    · split at hok
      · exact Except.noConfusion hok
      · injection hok with hok
        subst hok
        rcases List.mem_map.mp hw' with ⟨w, hw, rfl⟩
        by_cases hc : w.id = wid ∧ amt ≤ w.balance
        · have h0 : 0 ≤ w.balance - amt := by omega
          simp [hc]
        · simpa [hc] using hinv w hw
  · intro db wid amt hlow
    have hany : db.wallets.any (fun w =>
        decide (w.id = wid) && decide (amt ≤ w.balance) && decide (w.balance - amt < 0)) = false := by
      rw [List.any_eq_false]
      intro w hw hc
      simp only [Bool.and_eq_true, decide_eq_true_eq] at hc
      omega
    have hcount : db.wallets.countP
        (fun w => decide (w.id = wid) && decide (amt ≤ w.balance)) = 0 := by
      rw [List.countP_eq_zero]
      intro w hw hc
      simp only [Bool.and_eq_true, decide_eq_true_eq] at hc
      have := hlow w hw hc.1
      omega
    unfold WalletRepository.Debit
    rw [hany, hcount]
    simp

/-- Witness for C2 at concrete wallets. -/
theorem C2_witness :
    (∀ w ∈ (DB.mk [⟨1, 10, "W1", 150⟩] []).wallets, 0 ≤ w.balance) ∧
    (∀ w ∈ (DB.mk [⟨1, 10, "W1", 20⟩] []).wallets, 0 ≤ w.balance) ∧
    WalletRepository.Debit (DB.mk [⟨1, 10, "W1", 50⟩] []) 1 100 =
      .error "insufficient balance or wallet not found" :=
  ⟨C2_balance_nonnegative.1 (DB.mk [⟨1, 10, "W1", 50⟩] []) 1 100 _ rfl (by decide),
   C2_balance_nonnegative.2.1 (DB.mk [⟨1, 10, "W1", 50⟩] []) 1 30 _ rfl (by decide),
   C2_balance_nonnegative.2.2 (DB.mk [⟨1, 10, "W1", 50⟩] []) 1 100 (by decide)⟩

/-- Lookup by reference commutes with a status update, which never touches
the reference column. -/
theorem findByReference_updateStatus (db : DB) (id : Nat) (s : TransactionStatus)
    (ref : String) :
    TransactionRepository.FindByReference (TransactionRepository.UpdateStatus db id s) ref =
      (TransactionRepository.FindByReference db ref).map
        (fun t => if t.id = id then { t with status := s } else t) := by
  unfold TransactionRepository.FindByReference TransactionRepository.UpdateStatus
  exact find?_map_pres _ _ (fun t => by by_cases h : t.id = id <;> simp [h]) _

/-- Balance observation after the settlement credit UPDATE. -/
theorem walletBalance_creditMap (db : DB) (wid : Nat) (amt : Int) :
    walletBalance { db with wallets := db.wallets.map (fun w =>
        if w.id = wid then { w with balance := w.balance + amt } else w) } wid =
      (walletBalance db wid).map (fun b => b + amt) := by
  unfold walletBalance
  rw [show ({ db with wallets := db.wallets.map (fun w =>
      if w.id = wid then { w with balance := w.balance + amt } else w) } : DB).wallets =
      db.wallets.map (fun w =>
        if w.id = wid then { w with balance := w.balance + amt } else w) from rfl]
  rw [find?_map_pres _ _ (fun w => by by_cases h : w.id = wid <;> simp [h])]
  cases hf : db.wallets.find? (fun w => decide (w.id = wid)) with
  | none => rfl
  | some w =>
    have hp := List.find?_some hf
    have hw : w.id = wid := by simpa using hp
    simp [hw]

/-- Settlement guard of processDeposit: a record already in `success` is
returned as-is with no state change. -/
theorem processDeposit_already_success (db : DB) (ref : String) (amt : Int) (st : String)
    (tx : Transaction)
    (hfind : TransactionRepository.FindByReference db ref = some tx)
    (hs : tx.status = .success) :
    PaystackHandler.processDeposit db ref amt st = .ok db := by
  unfold PaystackHandler.processDeposit
  rw [hfind]
  simp [hs]

/-- Amount-mismatch path of processDeposit: the record (not yet `success`)
is marked failed and the function returns without error. -/
theorem processDeposit_mismatch (db : DB) (ref : String) (amt : Int) (tx : Transaction)
    (hfind : TransactionRepository.FindByReference db ref = some tx)
    (hst : tx.status ≠ .success)
    (hamt : tx.amount ≠ amt) :
    PaystackHandler.processDeposit db ref amt "success" =
      .ok (TransactionRepository.UpdateStatus db tx.id .failed) := by
  unfold PaystackHandler.processDeposit
  rw [hfind]
  simp [hst, hamt]

/-- Main settlement path of processDeposit for a record not yet `success`
whose amount matches: the wallet is credited and the record transitions to
`success`, inside one store transaction. -/
theorem processDeposit_settles (db : DB) (ref : String) (amt : Int) (tx : Transaction)
    (hfind : TransactionRepository.FindByReference db ref = some tx)
    (hst : tx.status ≠ .success)
    (hamt : tx.amount = amt)
    (h0 : 0 ≤ amt)
    (hinv : ∀ w ∈ db.wallets, 0 ≤ w.balance) :
    ∃ db1 : DB,
      PaystackHandler.processDeposit db ref amt "success" = .ok db1 ∧
      TransactionRepository.FindByReference db1 ref = some { tx with status := .success } ∧
      walletBalance db1 tx.walletId = (walletBalance db tx.walletId).map (fun b => b + amt) := by
  have hchk : db.wallets.any (fun w =>
      decide (w.id = tx.walletId) && decide (w.balance + amt < 0)) = false := by
    rw [List.any_eq_false]
    intro w hw hc
    simp only [Bool.and_eq_true, decide_eq_true_eq] at hc
    have := hinv w hw
    omega
  refine ⟨TransactionRepository.UpdateStatus
      { db with wallets := db.wallets.map (fun w =>
          if w.id = tx.walletId then { w with balance := w.balance + amt } else w) }
      tx.id .success, ?_, ?_, ?_⟩
  · unfold PaystackHandler.processDeposit
    rw [hfind]
    simp [hst, hamt, hchk]
  · rw [findByReference_updateStatus]
    have hfind' : TransactionRepository.FindByReference
        { db with wallets := db.wallets.map (fun w =>
            if w.id = tx.walletId then { w with balance := w.balance + amt } else w) } ref =
        some tx := hfind
    rw [hfind']
    simp
  · have hbal : walletBalance (TransactionRepository.UpdateStatus
        { db with wallets := db.wallets.map (fun w =>
            if w.id = tx.walletId then { w with balance := w.balance + amt } else w) }
        tx.id .success) tx.walletId =
        walletBalance
          { db with wallets := db.wallets.map (fun w =>
              if w.id = tx.walletId then { w with balance := w.balance + amt } else w) }
          tx.walletId := rfl
    rw [hbal, walletBalance_creditMap]

/-- C1: settling the same external reference twice is idempotent — a record
already in `success` makes processDeposit return success immediately with no
state change, and across two invocations on an initially pending record the
wallet is credited exactly once. -/
theorem C1_duplicate_settlement_idempotent :
    (∀ (db : DB) (ref : String) (amt : Int) (st : String) (tx : Transaction),
      TransactionRepository.FindByReference db ref = some tx →
      tx.status = .success →
      PaystackHandler.processDeposit db ref amt st = .ok db) ∧
    (∀ (db : DB) (ref : String) (amt : Int) (tx : Transaction),
      TransactionRepository.FindByReference db ref = some tx →
      tx.status = .pending →
      tx.amount = amt →
      0 ≤ amt →
      (∀ w ∈ db.wallets, 0 ≤ w.balance) →
      ∃ db1 : DB,
        PaystackHandler.processDeposit db ref amt "success" = .ok db1 ∧
        walletBalance db1 tx.walletId = (walletBalance db tx.walletId).map (fun b => b + amt) ∧
        PaystackHandler.processDeposit db1 ref amt "success" = .ok db1) := by
  constructor
  · intro db ref amt st tx hfind hs
    exact processDeposit_already_success db ref amt st tx hfind hs
  · intro db ref amt tx hfind hpend hamt h0 hinv
    obtain ⟨db1, hrun, hfind1, hbal⟩ :=
      processDeposit_settles db ref amt tx hfind (by rw [hpend]; intro h; cases h) hamt h0 hinv
    exact ⟨db1, hrun, hbal,
      processDeposit_already_success db1 ref amt "success" _ hfind1 rfl⟩

/-- Witness for C1 at a concrete pending deposit of 100 kobo. -/
theorem C1_witness :
    PaystackHandler.processDeposit
      (DB.mk [⟨1, 10, "W1", 100⟩] [⟨7, 10, 1, .deposit, 100, .success, some "rs"⟩])
      "rs" 100 "success" =
      .ok (DB.mk [⟨1, 10, "W1", 100⟩] [⟨7, 10, 1, .deposit, 100, .success, some "rs"⟩]) ∧
    (∃ db1 : DB,
      PaystackHandler.processDeposit
        (DB.mk [⟨1, 10, "W1", 0⟩] [⟨7, 10, 1, .deposit, 100, .pending, some "rp"⟩])
        "rp" 100 "success" = .ok db1 ∧
      walletBalance db1 1 =
        (walletBalance (DB.mk [⟨1, 10, "W1", 0⟩]
          [⟨7, 10, 1, .deposit, 100, .pending, some "rp"⟩]) 1).map (fun b => b + 100) ∧
      PaystackHandler.processDeposit db1 "rp" 100 "success" = .ok db1) :=
  ⟨C1_duplicate_settlement_idempotent.1 _ "rs" 100 "success"
      ⟨7, 10, 1, .deposit, 100, .success, some "rs"⟩ rfl rfl,
   C1_duplicate_settlement_idempotent.2 _ "rp" 100
      ⟨7, 10, 1, .deposit, 100, .pending, some "rp"⟩ rfl rfl rfl (by decide) (by decide)⟩

/-- Store state with one transaction record already in the terminal status
`failed`. -/
def failedDepositDB : DB :=
  DB.mk [⟨1, 10, "W1", 0⟩] [⟨7, 10, 1, .deposit, 100, .failed, some "r4"⟩]

/-- C4 counterexample: a record whose status is the terminal `failed` is
moved back out of it — a settlement invocation with matching amount and
processor status success transitions it to `success` (and credits the
wallet), so `failed` is not terminal. -/
theorem C4_counterexample :
    TransactionRepository.FindByReference failedDepositDB "r4" =
      some ⟨7, 10, 1, .deposit, 100, .failed, some "r4"⟩ ∧
    PaystackHandler.processDeposit failedDepositDB "r4" 100 "success" =
      .ok (DB.mk [⟨1, 10, "W1", 100⟩]
        [⟨7, 10, 1, .deposit, 100, .success, some "r4"⟩]) :=
  ⟨rfl, rfl⟩

/-- C4 amended: the settlement guard checks only for `success`, so `success`
is terminal for settlement invocations (processDeposit returns immediately
with no state change), and `pending → failed`, `pending → success` occur;
but `failed` is not terminal: a settlement invocation with matching amount
and processor status success transitions a `failed` record to `success` and
credits the wallet again. -/
theorem C4_terminal_status_amended :
    (∀ (db : DB) (ref : String) (amt : Int) (st : String) (tx : Transaction),
      TransactionRepository.FindByReference db ref = some tx →
      tx.status = .success →
      PaystackHandler.processDeposit db ref amt st = .ok db) ∧
    (∀ (db : DB) (ref : String) (amt : Int) (tx : Transaction),
      TransactionRepository.FindByReference db ref = some tx →
      tx.status = .failed →
      tx.amount = amt →
      0 ≤ amt →
      (∀ w ∈ db.wallets, 0 ≤ w.balance) →
      ∃ db1 : DB,
        PaystackHandler.processDeposit db ref amt "success" = .ok db1 ∧
        TransactionRepository.FindByReference db1 ref = some { tx with status := .success } ∧
        walletBalance db1 tx.walletId =
          (walletBalance db tx.walletId).map (fun b => b + amt)) := by
  constructor
  · intro db ref amt st tx hfind hs
    exact processDeposit_already_success db ref amt st tx hfind hs
  · intro db ref amt tx hfind hfail hamt h0 hinv
    exact processDeposit_settles db ref amt tx hfind (by rw [hfail]; intro h; cases h)
      hamt h0 hinv

/-- Witness for C4 at concrete records. -/
theorem C4_witness :
    PaystackHandler.processDeposit
      (DB.mk [⟨1, 10, "W1", 5⟩] [⟨7, 10, 1, .deposit, 100, .success, some "rt"⟩])
      "rt" 100 "success" =
      .ok (DB.mk [⟨1, 10, "W1", 5⟩] [⟨7, 10, 1, .deposit, 100, .success, some "rt"⟩]) ∧
    (∃ db1 : DB,
      PaystackHandler.processDeposit failedDepositDB "r4" 100 "success" = .ok db1 ∧
      TransactionRepository.FindByReference db1 "r4" =
        some ⟨7, 10, 1, .deposit, 100, .success, some "r4"⟩ ∧
      walletBalance db1 1 = (walletBalance failedDepositDB 1).map (fun b => b + 100)) :=
  ⟨C4_terminal_status_amended.1 _ "rt" 100 "success"
      ⟨7, 10, 1, .deposit, 100, .success, some "rt"⟩ rfl rfl,
   C4_terminal_status_amended.2 failedDepositDB "r4" 100
      ⟨7, 10, 1, .deposit, 100, .failed, some "r4"⟩ rfl rfl rfl (by decide) (by decide)⟩

/-- Store state with one pending deposit of 100 kobo awaiting settlement. -/
def pendingDepositDB : DB :=
  DB.mk [⟨1, 10, "W1", 0⟩] [⟨7, 10, 1, .deposit, 100, .pending, some "r5"⟩]

/-- C5 counterexample: settling with a notified amount (250) different from
the recorded amount (100) marks the record failed and does not credit the
wallet, but processDeposit returns without error — the caller sees success,
not an error. -/
theorem C5_counterexample :
    (PaystackHandler.processDeposit pendingDepositDB "r5" 250 "success").isOk = true ∧
    PaystackHandler.processDeposit pendingDepositDB "r5" 250 "success" =
      .ok (DB.mk [⟨1, 10, "W1", 0⟩]
        [⟨7, 10, 1, .deposit, 100, .failed, some "r5"⟩]) :=
  ⟨rfl, rfl⟩

/-- C5 amended: an amount mismatch on a record not already `success`
transitions the record to `failed` and does not credit the wallet, but the
settlement operation returns success (a nil error) to its caller when the
status update succeeds, rather than reporting an error. -/
theorem C5_mismatch_amended :
    ∀ (db : DB) (ref : String) (amt : Int) (tx : Transaction),
      TransactionRepository.FindByReference db ref = some tx →
      tx.status ≠ .success →
      tx.amount ≠ amt →
      ∃ db' : DB,
        PaystackHandler.processDeposit db ref amt "success" = .ok db' ∧
        db'.wallets = db.wallets ∧
        TransactionRepository.FindByReference db' ref =
          some { tx with status := .failed } := by
  intro db ref amt tx hfind hst hamt
  refine ⟨TransactionRepository.UpdateStatus db tx.id .failed,
    processDeposit_mismatch db ref amt tx hfind hst hamt, rfl, ?_⟩
  rw [findByReference_updateStatus, hfind]
  simp

/-- Witness for C5 at the concrete mismatching settlement. -/
theorem C5_witness :
    ∃ db' : DB,
      PaystackHandler.processDeposit pendingDepositDB "r5" 250 "success" = .ok db' ∧
      db'.wallets = pendingDepositDB.wallets ∧
      TransactionRepository.FindByReference db' "r5" =
        some ⟨7, 10, 1, .deposit, 100, .failed, some "r5"⟩ :=
  C5_mismatch_amended pendingDepositDB "r5" 250
    ⟨7, 10, 1, .deposit, 100, .pending, some "r5"⟩ rfl (by decide) (by decide)

/-- Store state with two funded wallets of distinct users and one earlier
transaction record. -/
def twoWalletDB : DB :=
  DB.mk [⟨1, 10, "W1", 500⟩, ⟨2, 20, "W2", 200⟩]
    [⟨9, 10, 1, .deposit, 500, .success, some "seed"⟩]

/-- C3: a covered transfer succeeds with the source debited and the
destination credited, but the transactions table is left exactly as it was —
the handler records no transfer_out/transfer_in rows. -/
theorem C3_transfer_creates_no_records :
    WalletHandler.Transfer twoWalletDB 10 "W2" 100 =
      (.success, DB.mk [⟨1, 10, "W1", 400⟩, ⟨2, 20, "W2", 300⟩]
        [⟨9, 10, 1, .deposit, 500, .success, some "seed"⟩]) ∧
    (WalletHandler.Transfer twoWalletDB 10 "W2" 100).2.transactions =
      twoWalletDB.transactions :=
  ⟨rfl, rfl⟩

/-- C9: when the authenticated user has no wallet row but the recipient
wallet number resolves, the Transfer handler reaches the unguarded
dereference of the nil sender-wallet pointer instead of returning a
not-found error. -/
theorem C9_nil_sender_deref :
    ∀ (db : DB) (userID : Nat) (walletNumber : String) (amount : Int) (rcpt : Wallet),
      walletNumber ≠ "" →
      100 ≤ amount →
      WalletRepository.FindByUserID db userID = none →
      WalletRepository.FindByWalletNumber db walletNumber = some rcpt →
      WalletHandler.Transfer db userID walletNumber amount = (.nilDeref, db) := by
  intro db uid num amt rcpt hnum hamt hsender hrcpt
  have hlt : ¬ amt < 100 := by omega
  simp [WalletHandler.Transfer, hsender, hrcpt, hnum, hlt]

/-- Witness for C9: user 99 has no wallet in the two-wallet store. -/
theorem C9_witness :
    WalletHandler.Transfer twoWalletDB 99 "W2" 100 = (.nilDeref, twoWalletDB) :=
  C9_nil_sender_deref twoWalletDB 99 "W2" 100 ⟨2, 20, "W2", 200⟩
    (by decide) (by decide) (by decide) (by decide)

/-- C10: the deposit-status route answers any caller holding the read
capability with the transaction's status and amount, and its result is
independent of the caller's user identity. -/
theorem C10_deposit_status_identity_independent :
    ∀ (db : DB) (caller1 caller2 : Nat) (perms : List String) (ref : String)
        (tx : Transaction),
      "read" ∈ perms →
      TransactionRepository.FindByReference db ref = some tx →
      PaystackHandler.GetDepositStatusRoute db caller1 perms ref =
        .found ref tx.status tx.amount ∧
      PaystackHandler.GetDepositStatusRoute db caller1 perms ref =
        PaystackHandler.GetDepositStatusRoute db caller2 perms ref := by
  intro db c1 c2 perms ref tx hperm hfind
  constructor
  · simp [PaystackHandler.GetDepositStatusRoute, PaystackHandler.GetDepositStatus,
      hperm, hfind]
  · rfl

/-- Witness for C10: two different callers with the read capability get the
same answer about the seed deposit. -/
theorem C10_witness :
    PaystackHandler.GetDepositStatusRoute twoWalletDB 20 ["read"] "seed" =
      .found "seed" .success 500 ∧
    PaystackHandler.GetDepositStatusRoute twoWalletDB 20 ["read"] "seed" =
      PaystackHandler.GetDepositStatusRoute twoWalletDB 77 ["read"] "seed" :=
  C10_deposit_status_identity_independent twoWalletDB 20 77 ["read"] "seed"
    ⟨9, 10, 1, .deposit, 500, .success, some "seed"⟩ (by decide) (by decide)

/-- What a successful ValidatePermissions run guarantees: a non-empty list
of recognized permission names. -/
theorem validatePermissions_ok {perms : List String}
    (h : ValidatePermissions perms = .ok ()) :
    (perms.length == 0) = false ∧ perms.all (fun p => validPermission p) = true := by
  unfold ValidatePermissions at h
  split at h
  · exact Except.noConfusion h
  · rename_i hlen
    split at h
    · exact Except.noConfusion h
    · rename_i hfind
      refine ⟨by simpa using hlen, ?_⟩
      rw [List.all_eq_true]
      intro p hp
      have := List.find?_eq_none.mp hfind p hp
      simpa using this

/-- C6: the 5-active-credential cap — the handler refuses a 6th key for a
user with 5 active ones and inserts nothing, the store trigger refuses such
an insert independently, and after revoking one active key a subsequent
issue succeeds. -/
theorem C6_active_key_cap :
    (∀ (db : KeyDB) (uid : Nat) (name : String) (perms : List String) (expiresAt : Int)
        (keyHash : String) (newID : Nat),
      ValidatePermissions perms = .ok () →
      5 ≤ APIKeyRepository.CountActiveByUser db uid →
      APIKeyHandler.CreateAPIKey db uid name perms expiresAt keyHash newID =
        .error "Maximum 5 active API keys allowed per user") ∧
    (∀ (db : KeyDB) (uid : Nat) (name keyHash : String) (perms : List String)
        (expiresAt : Int) (newID : Nat),
      5 ≤ db.apiKeys.countP (fun k =>
          decide (k.userId = uid) && k.isActive && decide (k.id ≠ newID)) →
      APIKeyRepository.Create db uid name keyHash perms expiresAt newID =
        .error "Maximum 5 active API keys allowed per user") ∧
    (∀ (db : KeyDB) (uid : Nat) (k : APIKey) (name : String) (perms : List String)
        (expiresAt : Int) (keyHash : String) (newID : Nat),
      k ∈ db.apiKeys → k.userId = uid → k.isActive = true →
      APIKeyRepository.CountActiveByUser db uid = 5 →
      ValidatePermissions perms = .ok () →
      (APIKeyHandler.CreateAPIKey (APIKeyRepository.Revoke db k.id) uid name perms
        expiresAt keyHash newID).isOk = true) := by
  refine ⟨?_, ?_, ?_⟩
  · intro db uid name perms expiresAt keyHash newID hvp hcount
    unfold APIKeyHandler.CreateAPIKey
    rw [hvp]
    simp [hcount]
  · intro db uid name keyHash perms expiresAt newID hcount
    unfold APIKeyRepository.Create
    rw [if_pos hcount]
  · intro db uid k name perms expiresAt keyHash newID hmem huid hact hfive hvp
    obtain ⟨hlen, hall⟩ := validatePermissions_ok hvp
    have hstrict := countP_lt_of_mem
      (p := fun j => decide (j.userId = uid) && j.isActive)
      (q := (fun j => decide (j.userId = uid) && j.isActive) ∘
        (fun j => if j.id = k.id then { j with isActive := false } else j))
      (a := k)
      (by simp [huid, hact])
      (by simp)
      db.apiKeys
      (by
        intro x hx hqx
        by_cases hid : x.id = k.id
        · simp [hid] at hqx
        · simpa [hid] using hqx)
      hmem
    have hfive' : List.countP (fun j => decide (j.userId = uid) && j.isActive)
        db.apiKeys = 5 := hfive
    have hrevlt : List.countP (fun j => decide (j.userId = uid) && j.isActive)
        (APIKeyRepository.Revoke db k.id).apiKeys < 5 := by
      show List.countP (fun j => decide (j.userId = uid) && j.isActive)
        (db.apiKeys.map (fun j => if j.id = k.id then { j with isActive := false } else j)) < 5
      rw [List.countP_map]
      omega
    have hmono : List.countP (fun j =>
        decide (j.userId = uid) && j.isActive && decide (j.id ≠ newID))
          (APIKeyRepository.Revoke db k.id).apiKeys ≤
        List.countP (fun j => decide (j.userId = uid) && j.isActive)
          (APIKeyRepository.Revoke db k.id).apiKeys :=
      List.countP_mono_left (by
        intro x hx hqx
        simp only [Bool.and_eq_true] at hqx ⊢
        exact ⟨hqx.1.1, hqx.1.2⟩)
    have hcap : APIKeyRepository.CountActiveByUser (APIKeyRepository.Revoke db k.id) uid =
        List.countP (fun j => decide (j.userId = uid) && j.isActive)
          (APIKeyRepository.Revoke db k.id).apiKeys := rfl
    have hanyfalse : perms.any (fun p => !(validPermission p)) = false := by
      rw [List.any_eq_false]
      intro p hp
      have := List.all_eq_true.mp hall p hp
      simp [this]
    unfold APIKeyHandler.CreateAPIKey
    rw [hvp]
    simp only []
    rw [if_neg (by omega)]
    unfold APIKeyRepository.Create
    rw [if_neg (by omega)]
    rw [if_neg (by simp [hlen, hanyfalse])]
    rfl

/-- Five active credentials of user 10. -/
def fiveKeyDB : KeyDB :=
  KeyDB.mk [⟨1, 10, "k1", "h1", ["read"], true, 100⟩,
    ⟨2, 10, "k2", "h2", ["read"], true, 100⟩,
    ⟨3, 10, "k3", "h3", ["read"], true, 100⟩,
    ⟨4, 10, "k4", "h4", ["deposit"], true, 100⟩,
    ⟨5, 10, "k5", "h5", ["transfer"], true, 100⟩]

/-- Witness for C6 against the five-key store. -/
theorem C6_witness :
    APIKeyHandler.CreateAPIKey fiveKeyDB 10 "k6" ["read"] 200 "h6" 6 =
      .error "Maximum 5 active API keys allowed per user" ∧
    APIKeyRepository.Create fiveKeyDB 10 "k6" "h6" ["read"] 200 6 =
      .error "Maximum 5 active API keys allowed per user" ∧
    (APIKeyHandler.CreateAPIKey
      (APIKeyRepository.Revoke fiveKeyDB 1) 10 "k6" ["read"] 200 "h6" 6).isOk = true :=
  ⟨C6_active_key_cap.1 fiveKeyDB 10 "k6" ["read"] 200 "h6" 6 rfl (by decide),
   C6_active_key_cap.2.1 fiveKeyDB 10 "k6" "h6" ["read"] 200 6 (by decide),
   C6_active_key_cap.2.2 fiveKeyDB 10 ⟨1, 10, "k1", "h1", ["read"], true, 100⟩
     "k6" ["read"] 200 "h6" 6 (by decide) (by decide) (by decide) (by decide) rfl⟩

/-- C7: the credential gate rejects a past-expiry credential as expired
even when still marked active, the revoked check takes precedence for an
inactive credential, and rollover of a not-yet-expired credential fails
with a not-expired error and creates nothing. -/
theorem C7_expiry_and_rollover :
    (∀ (k : APIKey) (now : Int),
      k.expiresAt < now → k.isActive = true →
      Middleware.validateAPIKey (.ok (some k)) now = .error "API key has expired") ∧
    (∀ (k : APIKey) (now : Int),
      k.isActive = false →
      Middleware.validateAPIKey (.ok (some k)) now = .error "API key is revoked") ∧
    (∀ (db : KeyDB) (uid expiredKeyID : Nat) (newExpiresAt now : Int)
        (keyHash : String) (newID : Nat) (k : APIKey),
      APIKeyRepository.FindByID db expiredKeyID = some k →
      k.userId = uid →
      ¬ k.expiresAt < now →
      APIKeyHandler.RolloverAPIKey db uid expiredKeyID newExpiresAt now keyHash newID =
        .error "API key is not expired yet") := by
  refine ⟨?_, ?_, ?_⟩
  · intro k now hexp hact
    simp [Middleware.validateAPIKey, Middleware.FindByKey, APIKey.IsExpired, hexp, hact]
  · intro k now hact
    simp [Middleware.validateAPIKey, Middleware.FindByKey, hact]
  · intro db uid expiredKeyID newExpiresAt now keyHash newID k hfind huid hexp
    unfold APIKeyHandler.RolloverAPIKey
    rw [hfind]
    simp [huid, APIKey.IsExpired, hexp]

/-- Witness for C7 against concrete credentials. -/
theorem C7_witness :
    Middleware.validateAPIKey (.ok (some ⟨1, 10, "k1", "h1", ["read"], true, 100⟩)) 200 =
      .error "API key has expired" ∧
    Middleware.validateAPIKey (.ok (some ⟨1, 10, "k1", "h1", ["read"], false, 100⟩)) 200 =
      .error "API key is revoked" ∧
    APIKeyHandler.RolloverAPIKey fiveKeyDB 10 1 300 50 "h9" 9 =
      .error "API key is not expired yet" :=
  ⟨C7_expiry_and_rollover.1 ⟨1, 10, "k1", "h1", ["read"], true, 100⟩ 200
      (by decide) (by decide),
   C7_expiry_and_rollover.2.1 ⟨1, 10, "k1", "h1", ["read"], false, 100⟩ 200 (by decide),
   C7_expiry_and_rollover.2.2 fiveKeyDB 10 1 300 50 "h9" 9
     ⟨1, 10, "k1", "h1", ["read"], true, 100⟩ rfl (by decide) (by decide)⟩

/-- C8 counterexample: a store failure in the API-key lookup is surfaced to
the caller with the context-wrapped store error message as the response
body, not as a generic internal failure. -/
theorem C8_counterexample :
    Middleware.AuthMiddlewareAPIKey (.error "connection refused") 0 =
      .error { status := 401, body := "failed to find API key: " ++ "connection refused" } ∧
    "failed to find API key: " ++ "connection refused" ≠ "Database error" :=
  ⟨rfl, by decide⟩

/-- C8 amended: wallet handlers surface store failures as the generic
"Database error" body, but the API-key branch of the auth middleware
returns the context-wrapped store error message verbatim as the 401
response body, so store errors do leak on that path. -/
theorem C8_error_propagation_amended :
    (∀ (e : String) (now : Int),
      Middleware.AuthMiddlewareAPIKey (.error e) now =
        .error { status := 401, body := "failed to find API key: " ++ e }) ∧
    (∀ e : String,
      WalletHandler.GetBalance (.error e) = .err 500 "Database error") := by
  exact ⟨fun e now => rfl, fun e => rfl⟩

/-- Witness for C8 at a concrete store failure. -/
theorem C8_witness :
    Middleware.AuthMiddlewareAPIKey (.error "timeout") 5 =
      .error { status := 401, body := "failed to find API key: " ++ "timeout" } ∧
    WalletHandler.GetBalance (.error "timeout") = .err 500 "Database error" :=
  ⟨C8_error_propagation_amended.1 "timeout" 5, C8_error_propagation_amended.2 "timeout"⟩

end Stage08
